import Mathlib

/-!
Verification of the Semgrep HTML report generator
(src/generate_html_report.py) against its specification.

The script is embedded shallowly: JSON values are an inductive type,
each Python dictionary or list operation used by the script is a small
Lean function with the same behaviour (operations that can raise a
Python exception return Except), and every function of the script is a
Lean function translated line by line from the source. File access and
the Jinja2 rendering engine are external to the repository and are
passed in as explicit function parameters.
-/

/-- JSON values, as produced by json.load in the script. -/
inductive Json where
  | null : Json
  | bool (b : Bool) : Json
  | num (n : Int) : Json
  | str (s : String) : Json
  | arr (xs : List Json) : Json
  | obj (fields : List (String × Json)) : Json

/-- Structural boolean equality of JSON values (Python ==). -/
def Json.beq : Json → Json → Bool
  | .null, .null => true
  | .bool a, .bool b => a == b
  | .num a, .num b => a == b
  | .str a, .str b => a == b
  | .arr [], .arr [] => true
  | .arr (x :: xs), .arr (y :: ys) => Json.beq x y && Json.beq (.arr xs) (.arr ys)
  | .obj [], .obj [] => true
  | .obj ((k, v) :: fs), .obj ((l, w) :: gs) =>
      k == l && Json.beq v w && Json.beq (.obj fs) (.obj gs)
  | _, _ => false

instance : BEq Json := ⟨Json.beq⟩

/-- Python truthiness of a JSON value (bool(x)). -/
def Json.truthy : Json → Bool
  | .null => false
  | .bool b => b
  | .num n => n != 0
  | .str s => s != ""
  | .arr xs => !xs.isEmpty
  | .obj fs => !fs.isEmpty

/-- Python d.get(k, default): defined on dictionaries, raises
AttributeError on every other value. -/
def Json.get (j : Json) (k : String) (dflt : Json) : Except String Json :=
  match j with
  | .obj fs => .ok ((fs.lookup k).getD dflt)
  | _ => .error "AttributeError: object has no attribute get"

/-- Python d[k] for a string key: raises KeyError when the key is
absent and TypeError on values that are not dictionaries. -/
def Json.subscriptKey (j : Json) (k : String) : Except String Json :=
  match j with
  | .obj fs =>
    match fs.lookup k with
    | some v => .ok v
    | none => .error "KeyError"
  | _ => .error "TypeError: value is not subscriptable by a string"

/-- Python x[0]: raises IndexError on an empty list and TypeError on
values that are not lists. -/
def Json.index0 (j : Json) : Except String Json :=
  match j with
  | .arr (x :: _) => .ok x
  | .arr [] => .error "IndexError: list index out of range"
  | _ => .error "TypeError: value is not subscriptable"

/-- Python s.upper() restricted to ASCII, as a map over the characters
of the string. -/
def pyUpper (s : String) : String := String.mk (s.data.map Char.toUpper)

/-- Python s.lower() restricted to ASCII, as a map over the characters
of the string. -/
def pyLower (s : String) : String := String.mk (s.data.map Char.toLower)

/-- Python s.upper(): defined on strings only. -/
def Json.upper (j : Json) : Except String String :=
  match j with
  | .str s => .ok (pyUpper s)
  | _ => .error "AttributeError: object has no attribute upper"

/-- Python k in j for a string k: key test on dictionaries, membership
on lists, substring test on strings, TypeError otherwise. -/
def pyContains (j : Json) (k : String) : Except String Bool :=
  match j with
  | .obj fs => .ok (fs.lookup k).isSome
  | .arr xs => .ok (xs.contains (.str k))
  | .str s => .ok (decide (List.IsInfix k.data s.data))
  | _ => .error "TypeError: argument is not iterable"

/-- Python iteration (for x in j): lists yield their elements,
dictionaries their keys, strings their characters; other values raise
TypeError. -/
def Json.iterate : Json → Except String (List Json)
  | .arr xs => .ok xs
  | .obj fs => .ok (fs.map fun p => Json.str p.1)
  | .str s => .ok (s.data.map fun c => Json.str (String.mk [c]))
  | _ => .error "TypeError: value is not iterable"

/-- A line and column pair, as stored under the start and end keys of a
finding dictionary. -/
structure LineCol where
  line : Json
  column : Json

/-- One normalized finding record, with the keys of the dictionary
built in extract_findings. The level field is always a string because
it is produced by upper; code is the optional snippet. -/
structure Finding where
  rule_id : Json
  message : Json
  level : String
  path : Json
  start : LineCol
  «end» : LineCol
  code : Option Json
  tags : Json

/-- Innermost loop of the method shown below: for location in
thread.locations, return the text of the first snippet found. -/
def snippetFromLocations : List Json → Except String (Option Json)
  | [] => .ok none
  | location :: rest => do
    let hasLoc ← pyContains location "location"
    if hasLoc then
      let inner ← location.subscriptKey "location"
      let hasSnip ← pyContains inner "snippet"
      if hasSnip then
        let snip ← inner.subscriptKey "snippet"
        let text ← snip.get "text" (.str "")
        pure (some text)
      else
        snippetFromLocations rest
    else
      snippetFromLocations rest

/-- Middle loop: for thread in flow.threadFlows, guarded by the key
test and the truthiness test of the Python condition. -/
def snippetFromThreads : List Json → Except String (Option Json)
  | [] => .ok none
  | thread :: rest => do
    let hasLocs ← pyContains thread "locations"
    let found ← (if hasLocs then do
        let locsVal ← thread.subscriptKey "locations"
        if locsVal.truthy then do
          let locs ← locsVal.iterate
          snippetFromLocations locs
        else pure none
      else pure (none : Option Json))
    match found with
    | some t => pure (some t)
    | none => snippetFromThreads rest

/-- Outer loop: for flow in result.codeFlows. -/
def snippetFromFlows : List Json → Except String (Option Json)
  | [] => .ok none
  | flow :: rest => do
    let hasThreads ← pyContains flow "threadFlows"
    let found ← (if hasThreads then do
        let threadsVal ← flow.subscriptKey "threadFlows"
        if threadsVal.truthy then do
          let threads ← threadsVal.iterate
          snippetFromThreads threads
        else pure none
      else pure (none : Option Json))
    match found with
    | some t => pure (some t)
    | none => snippetFromFlows rest

/-- The method _extract_code_snippet of the script: walk codeFlows,
then threadFlows, then locations, and return the text of the first
snippet reached by that walk, or none when the walk finds no snippet
and falls through to return None. -/
def _extract_code_snippet (result : Json) : Except String (Option Json) := do
  let hasCF ← pyContains result "codeFlows"
  if hasCF then
    let cf ← result.subscriptKey "codeFlows"
    if cf.truthy then
      let flows ← cf.iterate
      snippetFromFlows flows
    else pure none
  else pure none

/-- The dictionary built for one raw result inside extract_findings,
with each lookup of the source reproduced in evaluation order. The
repeated Python expression locations-get-then-index-zero is pure, so it
is computed once and reused. -/
def extract_finding (result : Json) : Except String Finding := do
  let rule_id ← result.get "ruleId" (.str "Unknown Rule")
  let msgObj ← result.get "message" (.obj [])
  let message ← msgObj.get "text" (.str "No message")
  let levelRaw ← result.get "level" (.str "note")
  let level ← levelRaw.upper
  let locs ← result.get "locations" (.arr [.obj []])
  let loc0 ← locs.index0
  let phys ← loc0.get "physicalLocation" (.obj [])
  let artifact ← phys.get "artifactLocation" (.obj [])
  let path ← artifact.get "uri" (.str "Unknown file")
  let region ← phys.get "region" (.obj [])
  let startLine ← region.get "startLine" (.num 0)
  let startColumn ← region.get "startColumn" (.num 0)
  let endLine ← region.get "endLine" (.num 0)
  let endColumn ← region.get "endColumn" (.num 0)
  let code ← _extract_code_snippet result
  let tags ← result.get "tags" (.arr [])
  pure { rule_id := rule_id, message := message, level := level, path := path,
         start := ⟨startLine, startColumn⟩, «end» := ⟨endLine, endColumn⟩,
         code := code, tags := tags }

/-- Sequential extraction of a list of raw results, stopping at the
first raised exception like the Python loop does. -/
def mapExcept (f : α → Except ε β) : List α → Except ε (List β)
  | [] => .ok []
  | x :: xs => do
    let y ← f x
    let ys ← mapExcept f xs
    pure (y :: ys)

/-- The loop over runs of extract_findings: for each run, when the run
has a results key, extract every result of that run in order. -/
def extractFromRuns : List Json → Except String (List Finding)
  | [] => .ok []
  | run :: rest => do
    let hasResults ← pyContains run "results"
    let fs ← (if hasResults then do
        let resultsVal ← run.subscriptKey "results"
        let results ← resultsVal.iterate
        mapExcept extract_finding results
      else pure ([] : List Finding))
    let more ← extractFromRuns rest
    pure (fs ++ more)

/-- The method extract_findings of the script: an empty or runs-free
input yields the empty list, otherwise every run is scanned in order. -/
def extract_findings (semgrep_data : Json) : Except String (List Finding) :=
  if !semgrep_data.truthy then .ok []
  else do
    let hasRuns ← pyContains semgrep_data "runs"
    if !hasRuns then pure []
    else do
      let runsVal ← semgrep_data.subscriptKey "runs"
      let runs ← runsVal.iterate
      extractFromRuns runs

/-- The severity_counts dictionary of generate_report_data, with its
four fixed keys. -/
structure SeverityCounts where
  high : Nat
  medium : Nat
  low : Nat
  info : Nat

/-- One pass of the counting loop body: if level in severity_counts,
increment that bucket, otherwise leave every bucket unchanged. -/
def bumpSeverity (counts : SeverityCounts) (level : String) : SeverityCounts :=
  if level == "high" then { counts with high := counts.high + 1 }
  else if level == "medium" then { counts with medium := counts.medium + 1 }
  else if level == "low" then { counts with low := counts.low + 1 }
  else if level == "info" then { counts with info := counts.info + 1 }
  else counts

/-- The counting loop of generate_report_data: fold over the findings,
lower-casing the level of each. -/
def severityCounts (findings : List Finding) : SeverityCounts :=
  findings.foldl (fun counts f => bumpSeverity counts (pyLower f.level)) ⟨0, 0, 0, 0⟩

/-- The dictionary returned by generate_report_data. -/
structure ReportData where
  repository_url : String
  commit_sha : String
  scan_date : String
  semgrep_version : String
  total_findings : Nat
  high_severity_count : Nat
  medium_severity_count : Nat
  low_severity_count : Nat
  info_severity_count : Nat
  findings : List Finding

/-- The method generate_report_data of the script. The current time
formatted by datetime.now().strftime is external input and is passed in
as the scan_date parameter; in the script repository_url and commit_sha
default to the string Unknown at the call site signature. -/
def generate_report_data (findings : List Finding) (repository_url : String)
    (commit_sha : String) (scan_date : String) : ReportData :=
  let counts := severityCounts findings
  { repository_url := repository_url
    commit_sha := commit_sha
    scan_date := scan_date
    semgrep_version := "Latest"
    total_findings := findings.length
    high_severity_count := counts.high
    medium_severity_count := counts.medium
    low_severity_count := counts.low
    info_severity_count := counts.info
    findings := findings }

/-- A Jinja2 template object, identified by its source text. -/
structure Template where
  source : String

/-- The ways the open call of _load_template can fail. The except
clause of the source distinguishes FileNotFoundError from every other
OSError, which it does not catch. -/
inductive OpenError where
  | fileNotFound
  | otherOSError
deriving DecidableEq

/-- The fallback_html string of _get_fallback_template, a brace being
written as an escape. -/
def fallback_html : String :=
  "\n        <!DOCTYPE html>\n        <html>\n        <head>\n            <title>Semgrep Security Report</title>\n            <style>\n                body \x7b font-family: Arial, sans-serif; margin: 20px; \x7d\n                .finding \x7b border: 1px solid #ddd; margin: 10px 0; padding: 15px; \x7d\n                .high \x7b border-left: 5px solid #dc3545; \x7d\n                .medium \x7b border-left: 5px solid #fd7e14; \x7d\n                .low \x7b border-left: 5px solid #28a745; \x7d\n                .info \x7b border-left: 5px solid #17a2b8; \x7d\n            </style>\n        </head>\n        <body>\n            <h1>Semgrep Security Scan Report</h1>\n            <p><strong>Generated:</strong> \x7b\x7b scan_date \x7d\x7d</p>\n            <p><strong>Total Findings:</strong> \x7b\x7b total_findings \x7d\x7d</p>\n            \n            \x7b% for finding in findings %\x7d\n            <div class=\"finding \x7b\x7b finding.level.lower() \x7d\x7d\">\n                <h3>\x7b\x7b finding.rule_id \x7d\x7d</h3>\n                <p><strong>Severity:</strong> \x7b\x7b finding.level \x7d\x7d</p>\n                <p><strong>Message:</strong> \x7b\x7b finding.message \x7d\x7d</p>\n                <p><strong>File:</strong> \x7b\x7b finding.path \x7d\x7d:\x7b\x7b finding.start.line \x7d\x7d</p>\n                \x7b% if finding.code %\x7d\n                <pre><code>\x7b\x7b finding.code \x7d\x7d</code></pre>\n                \x7b% endif %\x7d\n            </div>\n            \x7b% endfor %\x7d\n        </body>\n        </html>\n        "

/-- The method _get_fallback_template: the fixed built-in template. -/
def _get_fallback_template : Template := ⟨fallback_html⟩

/-- The method _load_template. Reading the file at template_path is
external input, passed in as a function from paths to either content
or an OpenError. Only FileNotFoundError is caught and answered with
the fallback template; every other failure propagates. -/
def _load_template (readFile : String → Except OpenError String)
    (template_path : String) : Except OpenError Template :=
  match readFile template_path with
  | .ok content => .ok ⟨content⟩
  | .error .fileNotFound => .ok _get_fallback_template
  | .error e => .error e

/-- The method parse_semgrep_output. Reading the file is passed in as
a function returning the content or none for FileNotFoundError, and
json.load is passed in as a function returning the parsed value or
none for JSONDecodeError; both failures are caught by the single
except clause and answered with an empty dictionary. -/
def parse_semgrep_output (readFile : String → Option String)
    (json_load : String → Option Json) (json_file : String) : Json :=
  match readFile json_file with
  | none => .obj []
  | some content =>
    match json_load content with
    | none => .obj []
    | some data => data

/-- The method generate_html. The Jinja2 rendering call is external
and passed in as a function from the report data to either the
rendered text or the message of a raised exception; a raised exception
is caught and answered with the inline error document. -/
def generate_html (render : ReportData → Except String String)
    (report_data : ReportData) : String :=
  match render report_data with
  | .ok html => html
  | .error e =>
    "<html><body><h1>Error generating report</h1><p>" ++ e ++ "</p></body></html>"

/-- The four lower-case level names that are keys of the
severity_counts dictionary; every other level string falls into no
bucket. -/
def isCountedLevel (s : String) : Bool :=
  s == "high" || s == "medium" || s == "low" || s == "info"

/-- A finding that differs from the all-defaults finding only in its
level, used for concrete severity-count inputs. -/
def levelOnlyFinding (level : String) : Finding :=
  { rule_id := .str "rule", message := .str "message", level := level,
    path := .str "file", start := ⟨.num 0, .num 0⟩, «end» := ⟨.num 0, .num 0⟩,
    code := none, tags := .arr [] }

/-- A well-shaped run: a dictionary whose results key, when present,
holds a list. Runs of this shape are the domain on which the counting
claim about extract_findings is stated. -/
def runWF : Json → Bool
  | .obj gs =>
    match gs.lookup "results" with
    | none => true
    | some (.arr _) => true
    | some _ => false
  | _ => false

/-- The results list of one run, used to state the run-major,
result-minor order in which extract_findings emits findings. -/
def runResults : Json → List Json
  | .obj gs =>
    match gs.lookup "results" with
    | some (.arr xs) => xs
    | _ => []
  | _ => []

/-- A well-shaped walk location: a dictionary whose location key, when
present, holds a dictionary whose snippet key, when present, holds a
dictionary. -/
def locWF : Json → Bool
  | .obj gs =>
    match gs.lookup "location" with
    | none => true
    | some (.obj hs) =>
      match hs.lookup "snippet" with
      | none => true
      | some (.obj _) => true
      | some _ => false
    | some _ => false
  | _ => false

/-- A well-shaped thread flow: a dictionary whose locations key, when
present, holds a list of well-shaped walk locations. -/
def threadWF : Json → Bool
  | .obj gs =>
    match gs.lookup "locations" with
    | none => true
    | some (.arr locs) => locs.all locWF
    | some _ => false
  | _ => false

/-- A well-shaped code flow: a dictionary whose threadFlows key, when
present, holds a list of well-shaped thread flows. -/
def flowWF : Json → Bool
  | .obj gs =>
    match gs.lookup "threadFlows" with
    | none => true
    | some (.arr threads) => threads.all threadWF
    | some _ => false
  | _ => false

/-- A well-shaped result for the snippet walk: a dictionary whose
codeFlows key, when present, holds a list of well-shaped code flows. -/
def resultWF : Json → Bool
  | .obj gs =>
    match gs.lookup "codeFlows" with
    | none => true
    | some (.arr flows) => flows.all flowWF
    | some _ => false
  | _ => false

/-- The snippet yielded by one walk location: a location entry yields a
snippet exactly when it has a location key whose dictionary has a
snippet key; the yielded value is the text field of that snippet
dictionary, defaulting to the empty string when the text field is
absent. This is the per-entry behaviour of the source, stated for the
amended claim about the snippet walk. -/
def locSnippet : Json → Option Json
  | .obj gs =>
    match gs.lookup "location" with
    | some (.obj hs) =>
      match hs.lookup "snippet" with
      | some (.obj ss) => some ((ss.lookup "text").getD (.str ""))
      | _ => none
    | _ => none
  | _ => none

/-- The locations list of a thread flow, empty when absent. -/
def threadLocs : Json → List Json
  | .obj gs =>
    match gs.lookup "locations" with
    | some (.arr locs) => locs
    | _ => []
  | _ => []

/-- The threadFlows list of a code flow, empty when absent. -/
def flowThreads : Json → List Json
  | .obj gs =>
    match gs.lookup "threadFlows" with
    | some (.arr threads) => threads
    | _ => []
  | _ => []

/-- The codeFlows list of a result, empty when absent. -/
def resultFlows : Json → List Json
  | .obj gs =>
    match gs.lookup "codeFlows" with
    | some (.arr flows) => flows
    | _ => []
  | _ => []

/-- The first snippet yielded by the nested walk over codeFlows, then
threadFlows, then locations, in list order at every level. -/
def firstSnippet (result : Json) : Option Json :=
  (resultFlows result).findSome? fun flow =>
    (flowThreads flow).findSome? fun thread =>
      (threadLocs thread).findSome? locSnippet

/-! Helper lemmas about Except used throughout the proofs. -/

@[simp]
theorem exceptOkBind (a : α) (f : α → Except ε β) :
    (Except.ok a : Except ε α) >>= f = f a := rfl

@[simp]
theorem exceptErrorBind (e : ε) (f : α → Except ε β) :
    (Except.error e : Except ε α) >>= f = Except.error e := rfl

@[simp]
theorem exceptPureEq (a : α) : (pure a : Except ε α) = Except.ok a := rfl

theorem exceptBindOkId (e : Except ε α) : (e >>= fun a => Except.ok a) = e := by
  cases e <;> rfl

/-! Claim theorems. -/

/-- Claim C1 (code bug): the spec asks that every nested lookup of
extract_findings tolerate any absent level of the chain, including a
present but empty locations list. The source expression
result.get(locations, [emptyDict])[0] substitutes the default only
when the key is absent; on a result whose locations key holds an empty
list the subscript raises IndexError, so extraction fails instead of
substituting the documented defaults. This theorem evaluates the code
at that failing input. -/
theorem extract_findings_empty_locations_raises :
    extract_findings
      (.obj [("runs", .arr [.obj [("results",
        .arr [.obj [("locations", .arr [])]])]])]) =
    .error "IndexError: list index out of range" := rfl

/-- Claim C3: a result that is an empty dictionary yields a finding
with every documented default: rule id Unknown Rule, message
No message, level NOTE, path Unknown file, start and end line and
column all zero, no code snippet, and an empty tag list. -/
theorem extract_finding_all_defaults :
    extract_findings (.obj [("runs", .arr [.obj [("results", .arr [.obj []])]])]) =
    .ok [{ rule_id := .str "Unknown Rule", message := .str "No message",
           level := "NOTE", path := .str "Unknown file",
           start := ⟨.num 0, .num 0⟩, «end» := ⟨.num 0, .num 0⟩,
           code := none, tags := .arr [] }] := rfl

/-- Claim C7: parse_semgrep_output returns the empty dictionary when
the file is missing or its content does not parse as JSON, and returns
the parsed value when reading and parsing succeed; in no case does it
propagate an exception. -/
theorem parse_semgrep_output_total (readFile : String → Option String)
    (json_load : String → Option Json) (json_file : String) :
    (readFile json_file = none →
      parse_semgrep_output readFile json_load json_file = .obj []) ∧
    (∀ content, readFile json_file = some content → json_load content = none →
      parse_semgrep_output readFile json_load json_file = .obj []) ∧
    (∀ content data, readFile json_file = some content → json_load content = some data →
      parse_semgrep_output readFile json_load json_file = data) := by
  refine ⟨fun h => ?_, fun content h1 h2 => ?_, fun content data h1 h2 => ?_⟩ <;>
    simp [parse_semgrep_output, *]

theorem parse_semgrep_output_total_witness :
    parse_semgrep_output (fun _ => none) (fun _ => some (.obj [])) "missing.json" = .obj [] ∧
    parse_semgrep_output (fun _ => some "nonsense") (fun _ => none) "bad.json" = .obj [] ∧
    parse_semgrep_output (fun _ => some "[1]") (fun _ => some (.arr [.num 1])) "data.json" =
      .arr [.num 1] :=
  ⟨(parse_semgrep_output_total (fun _ => none) (fun _ => some (.obj [])) "missing.json").1 rfl,
   (parse_semgrep_output_total (fun _ => some "nonsense") (fun _ => none) "bad.json").2.1
     "nonsense" rfl rfl,
   (parse_semgrep_output_total (fun _ => some "[1]") (fun _ => some (.arr [.num 1]))
     "data.json").2.2 "[1]" (.arr [.num 1]) rfl rfl⟩

/-- Claim C8: generate_html always produces a string: the rendered
text when rendering succeeds, and otherwise the minimal fallback
document with the message of the raised exception spliced into it. -/
theorem generate_html_total (render : ReportData → Except String String)
    (report_data : ReportData) :
    (∀ html, render report_data = .ok html →
      generate_html render report_data = html) ∧
    (∀ e, render report_data = .error e →
      generate_html render report_data =
        "<html><body><h1>Error generating report</h1><p>" ++ e ++ "</p></body></html>") := by
  constructor <;> intro s h <;> simp [generate_html, h]

theorem generate_html_total_witness :
    generate_html (fun _ => .ok "<html></html>")
      (generate_report_data [] "Unknown" "Unknown" "2024-01-01 00:00:00 UTC") =
      "<html></html>" ∧
    generate_html (fun _ => .error "UndefinedError")
      (generate_report_data [] "Unknown" "Unknown" "2024-01-01 00:00:00 UTC") =
      "<html><body><h1>Error generating report</h1><p>UndefinedError</p></body></html>" :=
  ⟨(generate_html_total (fun _ => .ok "<html></html>") _).1 "<html></html>" rfl,
   ((generate_html_total (fun _ => .error "UndefinedError") _).2 "UndefinedError" rfl).trans rfl⟩

/-- Claim C9 counterexample: an access failure that is not
FileNotFoundError, here any other OSError such as PermissionError, is
not caught by _load_template, so construction propagates the failure
instead of succeeding with the fallback template. -/
theorem load_template_permission_error_counterexample :
    _load_template (fun _ => .error .otherOSError) "/app/templates/report_template.html" =
      .error .otherOSError := rfl

/-- Claim C9 amended: _load_template answers a FileNotFoundError with
the fixed built-in fallback template and a successful read with a
template built from the file content; any other access failure
propagates instead of falling back. -/
theorem load_template_fallback_on_not_found
    (readFile : String → Except OpenError String) (template_path : String) :
    (readFile template_path = .error .fileNotFound →
      _load_template readFile template_path = .ok _get_fallback_template) ∧
    (∀ content, readFile template_path = .ok content →
      _load_template readFile template_path = .ok ⟨content⟩) ∧
    (readFile template_path = .error .otherOSError →
      _load_template readFile template_path = .error .otherOSError) := by
  refine ⟨fun h => ?_, fun content h => ?_, fun h => ?_⟩ <;> simp [_load_template, h]

theorem load_template_fallback_on_not_found_witness :
    _load_template (fun _ => .error .fileNotFound) "/app/templates/report_template.html" =
      .ok _get_fallback_template :=
  (load_template_fallback_on_not_found (fun _ => .error .fileNotFound)
    "/app/templates/report_template.html").1 rfl

/-- Claim C10: generate_report_data passes the findings sequence
through unchanged: the findings field of the returned report data is
exactly the input list, whatever the repository url and commit sha
arguments are. -/
theorem generate_report_data_preserves_findings (findings : List Finding)
    (repository_url commit_sha scan_date : String) :
    (generate_report_data findings repository_url commit_sha scan_date).findings =
      findings := rfl

/-! Severity counting lemmas. -/

theorem bumpSeverity_high (c : SeverityCounts) (s : String) :
    (bumpSeverity c s).high = c.high + (if s == "high" then 1 else 0) := by
  simp only [bumpSeverity]
  split_ifs <;> simp_all

theorem bumpSeverity_medium (c : SeverityCounts) (s : String) :
    (bumpSeverity c s).medium = c.medium + (if s == "medium" then 1 else 0) := by
  simp only [bumpSeverity]
  split_ifs <;> simp_all

theorem bumpSeverity_low (c : SeverityCounts) (s : String) :
    (bumpSeverity c s).low = c.low + (if s == "low" then 1 else 0) := by
  simp only [bumpSeverity]
  split_ifs <;> simp_all

theorem bumpSeverity_info (c : SeverityCounts) (s : String) :
    (bumpSeverity c s).info = c.info + (if s == "info" then 1 else 0) := by
  simp only [bumpSeverity]
  split_ifs <;> simp_all

theorem severityCounts_foldl (l : List Finding) (c : SeverityCounts) :
    l.foldl (fun acc f => bumpSeverity acc (pyLower f.level)) c =
      { high := c.high + l.countP fun f => pyLower f.level == "high",
        medium := c.medium + l.countP fun f => pyLower f.level == "medium",
        low := c.low + l.countP fun f => pyLower f.level == "low",
        info := c.info + l.countP fun f => pyLower f.level == "info" } := by
  induction l generalizing c with
  | nil => cases c; simp
  | cons f t ih =>
    rw [List.foldl_cons, ih]
    have hh := bumpSeverity_high c (pyLower f.level)
    have hm := bumpSeverity_medium c (pyLower f.level)
    have hl := bumpSeverity_low c (pyLower f.level)
    have hi := bumpSeverity_info c (pyLower f.level)
    simp only [List.countP_cons, hh, hm, hl, hi, SeverityCounts.mk.injEq]
    refine ⟨?_, ?_, ?_, ?_⟩ <;> split_ifs <;> omega

theorem severityCounts_eq (l : List Finding) :
    severityCounts l =
      { high := l.countP fun f => pyLower f.level == "high",
        medium := l.countP fun f => pyLower f.level == "medium",
        low := l.countP fun f => pyLower f.level == "low",
        info := l.countP fun f => pyLower f.level == "info" } := by
  rw [severityCounts, severityCounts_foldl]
  simp

theorem counted_partition (l : List Finding) :
    l.countP (fun f => pyLower f.level == "high")
      + l.countP (fun f => pyLower f.level == "medium")
      + l.countP (fun f => pyLower f.level == "low")
      + l.countP (fun f => pyLower f.level == "info")
      + l.countP (fun f => !isCountedLevel (pyLower f.level)) = l.length := by
  induction l with
  | nil => simp
  | cons f t ih =>
    simp only [List.countP_cons, List.length_cons]
    have hite :
        (if (pyLower f.level == "high") = true then 1 else 0)
          + (if (pyLower f.level == "medium") = true then 1 else 0)
          + (if (pyLower f.level == "low") = true then 1 else 0)
          + (if (pyLower f.level == "info") = true then 1 else 0)
          + (if (!isCountedLevel (pyLower f.level)) = true then 1 else 0) = (1 : Nat) := by
      by_cases h1 : pyLower f.level = "high"
      · simp only [h1]; decide
      · by_cases h2 : pyLower f.level = "medium"
        · simp only [h2]; decide
        · by_cases h3 : pyLower f.level = "low"
          · simp only [h3]; decide
          · by_cases h4 : pyLower f.level = "info"
            · simp only [h4]; decide
            · simp [isCountedLevel, beq_iff_eq, h1, h2, h3, h4]
    omega

/-- Claim C4: for every findings list, total_findings equals the
length of the findings sequence, the four severity counters sum to at
most total_findings, and the sum is strictly below total_findings
whenever some finding has a lowered level outside the four counted
bucket names. -/
theorem generate_report_data_invariant (findings : List Finding)
    (repository_url commit_sha scan_date : String) :
    (generate_report_data findings repository_url commit_sha scan_date).total_findings
        = findings.length ∧
    (generate_report_data findings repository_url commit_sha scan_date).high_severity_count
        + (generate_report_data findings repository_url commit_sha scan_date).medium_severity_count
        + (generate_report_data findings repository_url commit_sha scan_date).low_severity_count
        + (generate_report_data findings repository_url commit_sha scan_date).info_severity_count
      ≤ (generate_report_data findings repository_url commit_sha scan_date).total_findings ∧
    ((∃ f ∈ findings, isCountedLevel (pyLower f.level) = false) →
      (generate_report_data findings repository_url commit_sha scan_date).high_severity_count
          + (generate_report_data findings repository_url commit_sha scan_date).medium_severity_count
          + (generate_report_data findings repository_url commit_sha scan_date).low_severity_count
          + (generate_report_data findings repository_url commit_sha scan_date).info_severity_count
        < (generate_report_data findings repository_url commit_sha scan_date).total_findings) := by
  have hc := severityCounts_eq findings
  have hp := counted_partition findings
  refine ⟨rfl, ?_, ?_⟩
  · simp only [generate_report_data, hc]
    omega
  · intro hex
    have hpos : 0 < findings.countP (fun f => !isCountedLevel (pyLower f.level)) := by
      rw [List.countP_pos_iff]
      obtain ⟨f, hf, hlev⟩ := hex
      exact ⟨f, hf, by simp [hlev]⟩
    simp only [generate_report_data, hc]
    omega

theorem generate_report_data_invariant_witness :
    (generate_report_data [levelOnlyFinding "bogus"] "u" "c" "d").high_severity_count
        + (generate_report_data [levelOnlyFinding "bogus"] "u" "c" "d").medium_severity_count
        + (generate_report_data [levelOnlyFinding "bogus"] "u" "c" "d").low_severity_count
        + (generate_report_data [levelOnlyFinding "bogus"] "u" "c" "d").info_severity_count
      < (generate_report_data [levelOnlyFinding "bogus"] "u" "c" "d").total_findings :=
  (generate_report_data_invariant [levelOnlyFinding "bogus"] "u" "c" "d").2.2
    ⟨levelOnlyFinding "bogus", by simp, rfl⟩

/-- Claim C5: each severity counter counts exactly the findings whose
lower-cased level equals that bucket name; appending a finding whose
lowered level is not one of the four bucket names changes no counter;
and on the concrete level list HIGH, high, Medium, bogus the counts
are high two, medium one, low zero, info zero, with four findings in
total. -/
theorem generate_report_data_severity_buckets :
    (∀ (findings : List Finding) (u c d : String),
      (generate_report_data findings u c d).high_severity_count
          = findings.countP (fun f => pyLower f.level == "high") ∧
      (generate_report_data findings u c d).medium_severity_count
          = findings.countP (fun f => pyLower f.level == "medium") ∧
      (generate_report_data findings u c d).low_severity_count
          = findings.countP (fun f => pyLower f.level == "low") ∧
      (generate_report_data findings u c d).info_severity_count
          = findings.countP (fun f => pyLower f.level == "info")) ∧
    (∀ (fs : List Finding) (f : Finding) (u c d : String),
      isCountedLevel (pyLower f.level) = false →
        (generate_report_data (fs ++ [f]) u c d).high_severity_count
            = (generate_report_data fs u c d).high_severity_count ∧
        (generate_report_data (fs ++ [f]) u c d).medium_severity_count
            = (generate_report_data fs u c d).medium_severity_count ∧
        (generate_report_data (fs ++ [f]) u c d).low_severity_count
            = (generate_report_data fs u c d).low_severity_count ∧
        (generate_report_data (fs ++ [f]) u c d).info_severity_count
            = (generate_report_data fs u c d).info_severity_count) ∧
    ((generate_report_data [levelOnlyFinding "HIGH", levelOnlyFinding "high",
        levelOnlyFinding "Medium", levelOnlyFinding "bogus"] "u" "c" "d").high_severity_count
        = 2 ∧
      (generate_report_data [levelOnlyFinding "HIGH", levelOnlyFinding "high",
        levelOnlyFinding "Medium", levelOnlyFinding "bogus"] "u" "c" "d").medium_severity_count
        = 1 ∧
      (generate_report_data [levelOnlyFinding "HIGH", levelOnlyFinding "high",
        levelOnlyFinding "Medium", levelOnlyFinding "bogus"] "u" "c" "d").low_severity_count
        = 0 ∧
      (generate_report_data [levelOnlyFinding "HIGH", levelOnlyFinding "high",
        levelOnlyFinding "Medium", levelOnlyFinding "bogus"] "u" "c" "d").info_severity_count
        = 0 ∧
      (generate_report_data [levelOnlyFinding "HIGH", levelOnlyFinding "high",
        levelOnlyFinding "Medium", levelOnlyFinding "bogus"] "u" "c" "d").total_findings
        = 4) := by
  refine ⟨?_, ?_, ?_, ?_, ?_, ?_, ?_⟩
  · intro findings u c d
    have hc := severityCounts_eq findings
    exact ⟨by simp only [generate_report_data, hc], by simp only [generate_report_data, hc],
      by simp only [generate_report_data, hc], by simp only [generate_report_data, hc]⟩
  · intro fs f u c d h
    simp only [isCountedLevel, Bool.or_eq_false_iff] at h
    have hc1 := severityCounts_eq (fs ++ [f])
    have hc2 := severityCounts_eq fs
    refine ⟨?_, ?_, ?_, ?_⟩ <;>
      simp [generate_report_data, hc1, hc2, List.countP_append, h.1.1.1, h.1.1.2,
        h.1.2, h.2]
  · rfl
  · rfl
  · rfl
  · rfl
  · rfl

theorem generate_report_data_severity_buckets_witness :
    (generate_report_data ([levelOnlyFinding "HIGH"] ++ [levelOnlyFinding "ERROR"])
        "u" "c" "d").high_severity_count
      = (generate_report_data [levelOnlyFinding "HIGH"] "u" "c" "d").high_severity_count :=
  (generate_report_data_severity_buckets.2.1 [levelOnlyFinding "HIGH"]
    (levelOnlyFinding "ERROR") "u" "c" "d" rfl).1

/-! Lemmas about mapExcept and the run loop, leading to claim C2. -/

theorem lookup_isSome_ne_nil {fs : List (String × Json)} {k : String} {v : Json}
    (h : List.lookup k fs = some v) : fs.isEmpty = false := by
  cases fs with
  | nil => simp [List.lookup] at h
  | cons p t => rfl

theorem mapExcept_append (f : α → Except ε β) (xs ys : List α) :
    mapExcept f (xs ++ ys) =
      mapExcept f xs >>= fun as => mapExcept f ys >>= fun bs => Except.ok (as ++ bs) := by
  induction xs with
  | nil =>
    simp only [List.nil_append, mapExcept, exceptOkBind]
    exact (exceptBindOkId (mapExcept f ys)).symm
  | cons x xs ih =>
    simp only [List.cons_append, mapExcept, List.append_eq]
    rw [ih]
    cases f x <;> cases mapExcept f xs <;> cases mapExcept f ys <;> simp

theorem mapExcept_ok_length (f : α → Except ε β) :
    ∀ (xs : List α) (l : List β), mapExcept f xs = .ok l → l.length = xs.length := by
  intro xs
  induction xs with
  | nil =>
    intro l h
    simp only [mapExcept, Except.ok.injEq] at h
    simp [← h]
  | cons x t ih =>
    intro l h
    simp only [mapExcept] at h
    cases hfx : f x with
    | error e => rw [hfx] at h; simp at h
    | ok y =>
      rw [hfx] at h
      simp only [exceptOkBind] at h
      cases hxs : mapExcept f t with
      | error e => rw [hxs] at h; simp at h
      | ok ys =>
        rw [hxs] at h
        simp only [exceptOkBind, exceptPureEq, Except.ok.injEq] at h
        subst h
        simp [ih ys hxs]

theorem mapExcept_ok_get (f : α → Except ε β) :
    ∀ (xs : List α) (l : List β), mapExcept f xs = .ok l →
      ∀ i (h1 : i < xs.length) (h2 : i < l.length),
        f (xs.get ⟨i, h1⟩) = .ok (l.get ⟨i, h2⟩) := by
  intro xs
  induction xs with
  | nil =>
    intro l h i h1 h2
    exact absurd h1 (by simp)
  | cons x t ih =>
    intro l h i h1 h2
    simp only [mapExcept] at h
    cases hfx : f x with
    | error e => rw [hfx] at h; simp at h
    | ok y =>
      rw [hfx] at h
      simp only [exceptOkBind] at h
      cases hxs : mapExcept f t with
      | error e => rw [hxs] at h; simp at h
      | ok ys =>
        rw [hxs] at h
        simp only [exceptOkBind, exceptPureEq, Except.ok.injEq] at h
        subst h
        cases i with
        | zero => simpa using hfx
        | succ n =>
          have hn1 : n < t.length := by simpa using h1
          have hn2 : n < ys.length := by simpa using h2
          simpa using ih ys hxs n hn1 hn2

theorem extractFromRuns_eq :
    ∀ (runs : List Json), (∀ r ∈ runs, runWF r = true) →
      extractFromRuns runs = mapExcept extract_finding (runs.flatMap runResults) := by
  intro runs
  induction runs with
  | nil => intro _; rfl
  | cons run rest ih =>
    intro h
    have hrun : runWF run = true := h run (List.mem_cons_self run rest)
    have hrest : ∀ r ∈ rest, runWF r = true :=
      fun r hr => h r (List.mem_cons_of_mem run hr)
    rw [List.flatMap_cons]
    cases run with
    | obj gs =>
      cases hres : List.lookup "results" gs with
      | none =>
        have hrr : runResults (.obj gs) = [] := by simp [runResults, hres]
        rw [hrr, List.nil_append, ← ih hrest]
        simp [extractFromRuns, pyContains, hres, exceptBindOkId]
      | some v =>
        cases v with
        | arr xs =>
          have hrr : runResults (.obj gs) = xs := by simp [runResults, hres]
          rw [hrr, mapExcept_append extract_finding xs (rest.flatMap runResults), ← ih hrest]
          simp [extractFromRuns, pyContains, hres, Json.subscriptKey, Json.iterate]
        | null => simp [runWF, hres] at hrun
        | bool b => simp [runWF, hres] at hrun
        | num n => simp [runWF, hres] at hrun
        | str s => simp [runWF, hres] at hrun
        | obj hs => simp [runWF, hres] at hrun
    | null => simp [runWF] at hrun
    | bool b => simp [runWF] at hrun
    | num n => simp [runWF] at hrun
    | str s => simp [runWF] at hrun
    | arr xs => simp [runWF] at hrun

/-- Claim C2 counterexample: an input mapping whose runs hold two
result objects in total, the second with a present but empty locations
list. The claim says extract_findings returns a list of exactly two
findings here; it raises IndexError instead, through the same
empty-list subscript recorded under claim C1. -/
theorem extract_findings_count_counterexample :
    extract_findings (.obj [("runs", .arr [.obj [("results",
      .arr [.obj [], .obj [("locations", .arr [])]])]])]) =
    .error "IndexError: list index out of range" := rfl

/-- Claim C2 amended: on an input dictionary whose runs key holds
well-shaped runs, extract_findings processes the flat list of results
in run-major, result-minor input order: the outcome equals mapping
extract_finding over that flat list, and whenever it returns a list
(extraction can instead raise, see the counterexample below) the list
has exactly one finding per result, the finding at each index coming
from the result at the same index; an input dictionary without a runs
key, and the empty dictionary, yield the empty list. No sorting and no
deduplication happen, since the output positions mirror the input
positions one for one. -/
theorem extract_findings_count_and_order :
    (∀ (fs : List (String × Json)) (runs : List Json),
      List.lookup "runs" fs = some (.arr runs) →
      (∀ r ∈ runs, runWF r = true) →
      extract_findings (.obj fs) = mapExcept extract_finding (runs.flatMap runResults) ∧
      (∀ l, extract_findings (.obj fs) = .ok l →
        l.length = (runs.flatMap runResults).length ∧
        ∀ i (h1 : i < (runs.flatMap runResults).length) (h2 : i < l.length),
          extract_finding ((runs.flatMap runResults).get ⟨i, h1⟩) = .ok (l.get ⟨i, h2⟩))) ∧
    (∀ fs : List (String × Json), List.lookup "runs" fs = none →
      extract_findings (.obj fs) = .ok []) ∧
    extract_findings (.obj []) = .ok [] := by
  refine ⟨?_, ?_, rfl⟩
  · intro fs runs hlk hwf
    have hnonempty : fs.isEmpty = false := lookup_isSome_ne_nil hlk
    have heq : extract_findings (.obj fs) = extractFromRuns runs := by
      simp [extract_findings, Json.truthy, hnonempty, pyContains, hlk,
        Json.subscriptKey, Json.iterate]
    have hrw : extract_findings (.obj fs) = mapExcept extract_finding
        (runs.flatMap runResults) := heq.trans (extractFromRuns_eq runs hwf)
    refine ⟨hrw, fun l hl => ?_⟩
    rw [hrw] at hl
    exact ⟨mapExcept_ok_length extract_finding _ l hl,
      fun i h1 h2 => mapExcept_ok_get extract_finding _ l hl i h1 h2⟩
  · intro fs hlk
    simp [extract_findings, Json.truthy, pyContains, hlk]

theorem extract_findings_count_and_order_witness :
    extract_findings (.obj [("runs", .arr [
        .obj [("results", .arr [.obj [], .obj [("ruleId", .str "r1")]])],
        .obj []])]) =
      mapExcept extract_finding
        (([Json.obj [("results", .arr [.obj [], .obj [("ruleId", .str "r1")]])],
           Json.obj []]).flatMap runResults) :=
  (extract_findings_count_and_order.1
    [("runs", .arr [.obj [("results", .arr [.obj [], .obj [("ruleId", .str "r1")]])],
      .obj []])]
    [.obj [("results", .arr [.obj [], .obj [("ruleId", .str "r1")]])], .obj []]
    rfl (by intro r hr; fin_cases hr <;> rfl)).1

/-! Lemmas about the snippet walk, leading to claim C6. -/

theorem snippetFromLocations_eq :
    ∀ (locs : List Json), locs.all locWF = true →
      snippetFromLocations locs = .ok (locs.findSome? locSnippet) := by
  intro locs
  induction locs with
  | nil => intro _; rfl
  | cons loc rest ih =>
    intro h
    rw [List.all_cons, Bool.and_eq_true] at h
    have hl := h.1
    have hr := h.2
    rw [List.findSome?_cons]
    cases loc with
    | obj gs =>
      cases hlk : List.lookup "location" gs with
      | none =>
        simp [snippetFromLocations, pyContains, hlk, locSnippet, ih hr]
      | some inner =>
        cases inner with
        | obj hs =>
          cases hsn : List.lookup "snippet" hs with
          | none =>
            simp [snippetFromLocations, pyContains, hlk, Json.subscriptKey, hsn,
              locSnippet, ih hr]
          | some sv =>
            cases sv with
            | obj ss =>
              simp [snippetFromLocations, pyContains, hlk, Json.subscriptKey, hsn,
                Json.get, locSnippet]
            | null => simp [locWF, hlk, hsn] at hl
            | bool b => simp [locWF, hlk, hsn] at hl
            | num n => simp [locWF, hlk, hsn] at hl
            | str s => simp [locWF, hlk, hsn] at hl
            | arr xs => simp [locWF, hlk, hsn] at hl
        | null => simp [locWF, hlk] at hl
        | bool b => simp [locWF, hlk] at hl
        | num n => simp [locWF, hlk] at hl
        | str s => simp [locWF, hlk] at hl
        | arr xs => simp [locWF, hlk] at hl
    | null => simp [locWF] at hl
    | bool b => simp [locWF] at hl
    | num n => simp [locWF] at hl
    | str s => simp [locWF] at hl
    | arr xs => simp [locWF] at hl

theorem snippetFromThreads_eq :
    ∀ (threads : List Json), threads.all threadWF = true →
      snippetFromThreads threads =
        .ok (threads.findSome? fun t => (threadLocs t).findSome? locSnippet) := by
  intro threads
  induction threads with
  | nil => intro _; rfl
  | cons thread rest ih =>
    intro h
    rw [List.all_cons, Bool.and_eq_true] at h
    have hl := h.1
    have hr := h.2
    rw [List.findSome?_cons]
    cases thread with
    | obj gs =>
      cases hlk : List.lookup "locations" gs with
      | none =>
        simp [snippetFromThreads, pyContains, hlk, threadLocs, ih hr]
      | some v =>
        cases v with
        | arr locs =>
          have hall : locs.all locWF = true := by simpa [threadWF, hlk] using hl
          cases locs with
          | nil =>
            simp [snippetFromThreads, pyContains, hlk, Json.subscriptKey, Json.truthy,
              threadLocs, ih hr]
          | cons l0 ls =>
            have hsl := snippetFromLocations_eq (l0 :: ls) hall
            simp only [snippetFromThreads, pyContains, hlk, Json.subscriptKey,
              Json.truthy, Json.iterate, threadLocs, hsl, exceptOkBind,
              Option.isSome_some, if_true, List.isEmpty_cons, Bool.not_false]
            cases hfs : (l0 :: ls).findSome? locSnippet with
            | some t => simp [hfs]
            | none => simp [hfs, ih hr, threadLocs]
        | null => simp [threadWF, hlk] at hl
        | bool b => simp [threadWF, hlk] at hl
        | num n => simp [threadWF, hlk] at hl
        | str s => simp [threadWF, hlk] at hl
        | obj hs => simp [threadWF, hlk] at hl
    | null => simp [threadWF] at hl
    | bool b => simp [threadWF] at hl
    | num n => simp [threadWF] at hl
    | str s => simp [threadWF] at hl
    | arr xs => simp [threadWF] at hl

theorem snippetFromFlows_eq :
    ∀ (flows : List Json), flows.all flowWF = true →
      snippetFromFlows flows =
        .ok (flows.findSome? fun flow =>
          (flowThreads flow).findSome? fun t => (threadLocs t).findSome? locSnippet) := by
  intro flows
  induction flows with
  | nil => intro _; rfl
  | cons flow rest ih =>
    intro h
    rw [List.all_cons, Bool.and_eq_true] at h
    have hl := h.1
    have hr := h.2
    rw [List.findSome?_cons]
    cases flow with
    | obj gs =>
      cases hlk : List.lookup "threadFlows" gs with
      | none =>
        simp [snippetFromFlows, pyContains, hlk, flowThreads, ih hr]
      | some v =>
        cases v with
        | arr threads =>
          have hall : threads.all threadWF = true := by simpa [flowWF, hlk] using hl
          cases threads with
          | nil =>
            simp [snippetFromFlows, pyContains, hlk, Json.subscriptKey, Json.truthy,
              flowThreads, ih hr]
          | cons t0 ts =>
            have hst := snippetFromThreads_eq (t0 :: ts) hall
            simp only [snippetFromFlows, pyContains, hlk, Json.subscriptKey,
              Json.truthy, Json.iterate, flowThreads, hst, exceptOkBind,
              Option.isSome_some, if_true, List.isEmpty_cons, Bool.not_false]
            cases hfs : (t0 :: ts).findSome? fun t => (threadLocs t).findSome? locSnippet with
            | some t => simp [hfs]
            | none => simp [hfs, ih hr, flowThreads]
        | null => simp [flowWF, hlk] at hl
        | bool b => simp [flowWF, hlk] at hl
        | num n => simp [flowWF, hlk] at hl
        | str s => simp [flowWF, hlk] at hl
        | obj hs => simp [flowWF, hlk] at hl
    | null => simp [flowWF] at hl
    | bool b => simp [flowWF] at hl
    | num n => simp [flowWF] at hl
    | str s => simp [flowWF] at hl
    | arr xs => simp [flowWF] at hl

/-- Claim C6 counterexample: take a result whose single walk location
holds a snippet dictionary without a text field. No snippet text
exists anywhere in this structure, so the claim says the method
returns none; the method instead stops at the snippet key and returns
the empty-string default, a value different from none. -/
theorem extract_code_snippet_empty_snippet_counterexample :
    _extract_code_snippet (.obj [("codeFlows", .arr [.obj [("threadFlows", .arr [
      .obj [("locations", .arr [.obj [("location", .obj [("snippet", .obj [])])]])]])]])])
      = .ok (some (.str "")) ∧
    (Except.ok (some (Json.str "")) : Except String (Option Json)) ≠ .ok none :=
  ⟨rfl, by simp⟩

/-- Claim C6 amended: on every well-shaped result, the method walks
codeFlows, then threadFlows, then locations, in list order at every
level, and returns the value of the first walk location holding a
snippet key: the text of that snippet, or the empty string when that
snippet has no text field; it returns none when no walk location holds
a snippet key. In particular, with two code flows where only the
second contains a snippet text, that text is returned. -/
theorem extract_code_snippet_first_snippet :
    (∀ result, resultWF result = true →
      _extract_code_snippet result = .ok (firstSnippet result)) ∧
    _extract_code_snippet (.obj [("codeFlows", .arr [
      .obj [("threadFlows", .arr [.obj [("locations", .arr [.obj []])]])],
      .obj [("threadFlows", .arr [.obj [("locations", .arr [
        .obj [("location", .obj [("snippet", .obj [("text", .str "x = source()")])])]])]])]])])
      = .ok (some (.str "x = source()")) := by
  constructor
  · intro result hwf
    cases result with
    | obj gs =>
      cases hlk : List.lookup "codeFlows" gs with
      | none =>
        simp [_extract_code_snippet, pyContains, hlk, firstSnippet, resultFlows]
      | some v =>
        cases v with
        | arr flows =>
          have hall : flows.all flowWF = true := by simpa [resultWF, hlk] using hwf
          cases flows with
          | nil =>
            simp [_extract_code_snippet, pyContains, hlk, Json.subscriptKey,
              Json.truthy, firstSnippet, resultFlows]
          | cons f0 fs =>
            have hsf := snippetFromFlows_eq (f0 :: fs) hall
            simp [_extract_code_snippet, pyContains, hlk, Json.subscriptKey,
              Json.truthy, Json.iterate, firstSnippet, resultFlows, hsf]
        | null => simp [resultWF, hlk] at hwf
        | bool b => simp [resultWF, hlk] at hwf
        | num n => simp [resultWF, hlk] at hwf
        | str s => simp [resultWF, hlk] at hwf
        | obj hs => simp [resultWF, hlk] at hwf
    | null => simp [resultWF] at hwf
    | bool b => simp [resultWF] at hwf
    | num n => simp [resultWF] at hwf
    | str s => simp [resultWF] at hwf
    | arr xs => simp [resultWF] at hwf
  · rfl

theorem extract_code_snippet_first_snippet_witness :
    _extract_code_snippet (.obj [("codeFlows", .arr [
      .obj [("threadFlows", .arr [.obj [("locations", .arr [.obj []])]])],
      .obj [("threadFlows", .arr [.obj [("locations", .arr [
        .obj [("location", .obj [("snippet", .obj [("text", .str "y = sink(x)")])])]])]])]])])
      = .ok (firstSnippet (.obj [("codeFlows", .arr [
        .obj [("threadFlows", .arr [.obj [("locations", .arr [.obj []])]])],
        .obj [("threadFlows", .arr [.obj [("locations", .arr [
          .obj [("location", .obj [("snippet", .obj [("text", .str "y = sink(x)")])])]])]])]])])) :=
  extract_code_snippet_first_snippet.1 _ rfl
